import Mathlib

/-
Verification development for the bass-shaper audio core
(`src/components/SpectrumAnalyzer.tsx`: class `AudioProcessor`, and the
`generateWaveform` pass of `WaveformVisualizer`).

Modelling conventions:
* JS numbers are modelled as `ℚ`; spectrum bin magnitudes as `ℕ`.
* A decoded audio buffer is modelled by its first channel, a `List ℚ`
  (`audioBuffer.getChannelData(0)`), which is the only channel the
  modelled code reads.
* The wall clock `audioContext.currentTime` is passed explicitly as a
  `now : ℚ` argument to every operation that reads it.
* A JS division whose divisor is `0` produces a non-finite number
  (`NaN` or `±Infinity`); such results are modelled as `none`.
* The Web Audio nodes are created exactly when `initialize()` runs, so
  node-null checks in the source are modelled by the `isInitialized`
  flag; the `audioContext` null checks keep their own `hasContext` flag.
-/

namespace BassShaper

/-- The `settings` record received by `AudioProcessor.updateSettings`
(interface `AudioProcessorProps`). -/
structure Settings where
  bassBoost : ℚ
  lowFreq : ℚ
  midFreq : ℚ
  highFreq : ℚ
  saturation : ℚ
  compression : ℚ
  gain : ℚ
  enabled : Bool
deriving DecidableEq

/-- The mutable parameters of the audio-graph stages: the output gain
node, the four filter nodes and the dynamics compressor. -/
structure StageParams where
  gainValue : ℚ
  bassBoostGain : ℚ
  bassBoostFrequency : ℚ
  lowGain : ℚ
  lowFrequency : ℚ
  midGain : ℚ
  midFrequency : ℚ
  highGain : ℚ
  highFrequency : ℚ
  compressorThreshold : ℚ
  compressorKnee : ℚ
  compressorRatio : ℚ
  compressorAttack : ℚ
  compressorRelease : ℚ
deriving DecidableEq

/-- The one active `AudioBufferSourceNode`: the buffer it was bound to
and the offset (second argument of `sourceNode.start(0, offset)`) it was
started at. -/
structure SourceNode where
  buffer : List ℚ
  startedAtOffset : ℚ
deriving DecidableEq

/-- The mutable state of an `AudioProcessor` instance. `startTime` is
the playback anchor, `pausedAt` the paused offset. Before
`initialize()` runs, no graph nodes exist and `stages` is a dead
placeholder (`updateSettings` cannot touch it then). -/
structure ProcessorState where
  hasContext : Bool
  isInitialized : Bool
  audioBuffer : Option (List ℚ)
  sourceNode : Option SourceNode
  startTime : ℚ
  pausedAt : ℚ
  stages : StageParams
deriving DecidableEq

/-- Stage parameters as configured by `initialize()`: filter types and
frequencies, compressor constants; gains keep the Web Audio defaults
(gain node 1, filter gains 0). -/
def initStages : StageParams :=
  { gainValue := 1
    bassBoostGain := 0
    bassBoostFrequency := 100
    lowGain := 0
    lowFrequency := 100
    midGain := 0
    midFrequency := 1000
    highGain := 0
    highFrequency := 3000
    compressorThreshold := -24
    compressorKnee := 30
    compressorRatio := 12
    compressorAttack := 0.003
    compressorRelease := 0.25 }

/-- Placeholder stage record for a processor whose graph nodes do not
exist yet (every field null in the source). -/
def noStages : StageParams :=
  { gainValue := 0
    bassBoostGain := 0
    bassBoostFrequency := 0
    lowGain := 0
    lowFrequency := 0
    midGain := 0
    midFrequency := 0
    highGain := 0
    highFrequency := 0
    compressorThreshold := 0
    compressorKnee := 0
    compressorRatio := 0
    compressorAttack := 0
    compressorRelease := 0 }

/-- A freshly constructed `AudioProcessor` (all fields at their
declared initial values). -/
def emptyState : ProcessorState :=
  { hasContext := false
    isInitialized := false
    audioBuffer := none
    sourceNode := none
    startTime := 0
    pausedAt := 0
    stages := noStages }

/-- `AudioProcessor.initialize()`: no-op when already done; otherwise
creates the context and the nodes and configures them. -/
def initGraph (st : ProcessorState) : ProcessorState :=
  if st.isInitialized then st
  else { st with hasContext := true, isInitialized := true, stages := initStages }

/-- `AudioProcessor.loadAudioFile` on a successful decode: runs
`initialize()` first when no context exists, then replaces the loaded
buffer by the decoded one. -/
def loadAudioFile (buf : List ℚ) (st : ProcessorState) : ProcessorState :=
  let st1 := if st.hasContext then st else initGraph st
  { st1 with audioBuffer := some buf }

/-- `AudioProcessor.stop()`: halts and discards any source node, then
zeroes `startTime` and `pausedAt`. -/
def stop (st : ProcessorState) : ProcessorState :=
  { st with sourceNode := none, startTime := 0, pausedAt := 0 }

/-- The JS expression `x || 0` on a number `x` (`0` and `NaN` are
falsy; a finite non-zero rational is truthy). -/
def jsOrZero (x : ℚ) : ℚ :=
  if x = 0 then 0 else x

/-- `AudioProcessor.play()`: returns early unless both a context and a
buffer exist; otherwise calls `stop()`, creates a fresh source node
bound to the buffer, starts it at `this.pausedAt || 0`, sets the anchor
`startTime = now - offset` and clears `pausedAt`. -/
def play (now : ℚ) (st : ProcessorState) : ProcessorState :=
  if st.hasContext = false then st
  else
    match st.audioBuffer with
    | none => st
    | some buf =>
      let st1 := stop st
      let offset := jsOrZero st1.pausedAt
      { st1 with
          sourceNode := some { buffer := buf, startedAtOffset := offset }
          startTime := now - offset
          pausedAt := 0 }

/-- `AudioProcessor.pause()`: returns early unless a context and a
source node exist; otherwise stores `pausedAt = now - startTime` and
discards the source node. -/
def pause (now : ℚ) (st : ProcessorState) : ProcessorState :=
  if st.hasContext = false then st
  else
    match st.sourceNode with
    | none => st
    | some _ => { st with pausedAt := now - st.startTime, sourceNode := none }

/-- `AudioProcessor.getCurrentTime()`: `0` without a context, else
`now - startTime` — in every transport state. -/
def getCurrentTime (now : ℚ) (st : ProcessorState) : ℚ :=
  if st.hasContext = false then 0 else now - st.startTime

/-- `AudioProcessor.isPlaying()`: whether a source node exists. -/
def isPlaying (st : ProcessorState) : Bool :=
  st.sourceNode.isSome

/-- `AudioProcessor.updateSettings`: no-op before `initialize()`;
otherwise writes the six mapped stage parameters from the raw settings
fields, leaving every other stage parameter untouched. -/
def updateSettings (s : Settings) (st : ProcessorState) : ProcessorState :=
  if st.isInitialized then
    { st with stages :=
      { st.stages with
          gainValue := s.gain / 100
          bassBoostGain := (s.bassBoost - 50) * 0.5
          lowGain := (s.lowFreq - 50) * 0.48
          midGain := (s.midFreq - 50) * 0.48
          highGain := (s.highFreq - 50) * 0.48
          compressorRatio := 1 + (s.compression / 100) * 19 } }
  else st

/-- `AudioProcessor.getLevel()` applied to one analyser magnitude
snapshot `frame` (each bin a byte value): `(sum / length) / 255 * 100`. -/
def getLevel (frame : List ℕ) : ℚ :=
  ((frame.sum : ℚ) / (frame.length : ℚ)) / 255 * 100

/-- `const samples = 800` of `WaveformVisualizer.generateWaveform`. -/
def samples : ℕ := 800

/-- JS float division by a block count: divisor `0` yields a
non-finite number (`0/0 = NaN`, else `±Infinity`), modelled as `none`. -/
def jsDiv (a : ℚ) (b : ℕ) : Option ℚ :=
  if b = 0 then none else some (a / (b : ℚ))

/-- The inner loop of `generateWaveform` for block `i`: sums
`|channel[i*blockSize+j]|` over `j < blockSize`, skipping indices past
the end of the channel. -/
def blockAbsSum (ch : List ℚ) (blockSize i : ℕ) : ℚ :=
  ((List.range blockSize).map (fun j =>
    if i * blockSize + j < ch.length then |ch.getD (i * blockSize + j) 0| else 0)).sum

/-- `WaveformVisualizer.generateWaveform` on the first channel `ch` of
a decoded buffer: `blockSize = floor(length / 800)`, and entry `i` of
the 800-entry envelope is `blockAbsSum / blockSize`. -/
def generateWaveform (ch : List ℚ) : List (Option ℚ) :=
  let blockSize := ch.length / samples
  (List.range samples).map (fun i => jsDiv (blockAbsSum ch blockSize i) blockSize)

/-- A mid-scale settings record (every slider at 50, `enabled := true`). -/
def sBase : Settings :=
  { bassBoost := 50, lowFreq := 50, midFreq := 50, highFreq := 50
    saturation := 50, compression := 50, gain := 50, enabled := true }

/-- `sBase` with `bassBoost` pushed above the documented range. -/
def s150 : Settings := { sBase with bassBoost := 150 }

/-- `sBase` with `bassBoost` at the upper bound of the documented range. -/
def s100 : Settings := { sBase with bassBoost := 100 }

/-- `sBase` with `saturation` and `enabled` changed and nothing else. -/
def sSat : Settings := { sBase with saturation := 0, enabled := false }

/-- A one-frame decoded first channel used by concrete transport runs. -/
def demoBuffer : List ℚ := [0.5]

/-- Claim C1 counterexample: from the stopped state reached by
`initialize(); stop()`, at wall clock `now = 5` the code returns
`getCurrentTime() = 5`, not `0` as the claim states (the claim's
`isPlaying() = false` part does hold). -/
theorem stop_time_counterexample :
    getCurrentTime 5 (stop (initGraph emptyState)) = 5 ∧
    isPlaying (stop (initGraph emptyState)) = false ∧
    (5 : ℚ) ≠ 0 := by
  refine ⟨?_, rfl, by norm_num⟩
  simp [getCurrentTime, stop, initGraph, emptyState]

/-- Claim C1 (amended): whenever the audio context exists,
`getCurrentTime()` returns `now - anchor` in every transport state —
also while paused or stopped, never `pausedOffset`; `stop()` from any
prior state resets the anchor and `pausedOffset` to `0` and leaves
`isPlaying() = false`, so `getCurrentTime()` afterwards equals the raw
clock `now`, not `0`. -/
theorem getCurrentTime_eq_now_sub_anchor (now : ℚ) (st : ProcessorState)
    (h : st.hasContext = true) :
    getCurrentTime now st = now - st.startTime ∧
    isPlaying (stop st) = false ∧
    (stop st).startTime = 0 ∧ (stop st).pausedAt = 0 ∧
    getCurrentTime now (stop st) = now := by
  refine ⟨by simp [getCurrentTime, h], rfl, rfl, rfl, ?_⟩
  simp [getCurrentTime, stop, h]

/-- Claim C1 witness: the amended statement at `now = 5` on the state
reached by `initialize()`. -/
theorem getCurrentTime_eq_now_sub_anchor_witness :
    getCurrentTime 5 (initGraph emptyState) = 5 - (initGraph emptyState).startTime ∧
    isPlaying (stop (initGraph emptyState)) = false ∧
    (stop (initGraph emptyState)).startTime = 0 ∧
    (stop (initGraph emptyState)).pausedAt = 0 ∧
    getCurrentTime 5 (stop (initGraph emptyState)) = 5 :=
  getCurrentTime_eq_now_sub_anchor 5 (initGraph emptyState) rfl

/-- Claim C2 counterexample: with `bassBoost = 150` the stage
parameters differ from those obtained at the clamped value `100`
(shelf gain 50 dB versus 25 dB), so `updateSettings` does not clamp
before mapping. -/
theorem updateSettings_clamp_counterexample :
    (updateSettings s150 (initGraph emptyState)).stages.bassBoostGain = 50 ∧
    (updateSettings s100 (initGraph emptyState)).stages.bassBoostGain = 25 ∧
    (updateSettings s150 (initGraph emptyState)).stages ≠
      (updateSettings s100 (initGraph emptyState)).stages := by
  have h150 : (updateSettings s150 (initGraph emptyState)).stages.bassBoostGain = 50 := by
    simp [updateSettings, initGraph, emptyState, s150, sBase]
    norm_num
  have h100 : (updateSettings s100 (initGraph emptyState)).stages.bassBoostGain = 25 := by
    simp [updateSettings, initGraph, emptyState, s100, sBase]
    norm_num
  refine ⟨h150, h100, fun hEq => ?_⟩
  rw [congrArg StageParams.bassBoostGain hEq, h100] at h150
  norm_num at h150

/-- Claim C2 (amended): `updateSettings` performs no clamping — the
mapping is evaluated on the raw settings fields, so an out-of-range
field produces an out-of-native-range stage parameter: `bassBoost =
150` yields bass shelf gain `50` dB, not the `25` dB of the clamped
value `100`. -/
theorem updateSettings_no_clamp (st : ProcessorState)
    (h : st.isInitialized = true) :
    (∀ s : Settings,
      (updateSettings s st).stages.bassBoostGain = (s.bassBoost - 50) * 0.5) ∧
    (updateSettings s150 st).stages.bassBoostGain = 50 ∧
    (updateSettings s100 st).stages.bassBoostGain = 25 := by
  refine ⟨fun s => by simp [updateSettings, h], ?_, ?_⟩ <;>
    simp [updateSettings, h, s150, s100, sBase] <;> norm_num

/-- Claim C2 witness: the amended statement on the state reached by
`initialize()`. -/
theorem updateSettings_no_clamp_witness :
    (∀ s : Settings,
      (updateSettings s (initGraph emptyState)).stages.bassBoostGain =
        (s.bassBoost - 50) * 0.5) ∧
    (updateSettings s150 (initGraph emptyState)).stages.bassBoostGain = 50 ∧
    (updateSettings s100 (initGraph emptyState)).stages.bassBoostGain = 25 :=
  updateSettings_no_clamp (initGraph emptyState) rfl

/-- Claim C4: on an initialized processor, `updateSettings` maps the
settings exactly as documented — output gain `gain/100`, bass shelf
gain `(bassBoost-50)*0.5`, peak gains `(·-50)*0.48`, compressor ratio
`1 + (compression/100)*19` — and never touches the compressor
threshold, knee, attack or release, which `initialize()` fixed at
`-24`, `30`, `0.003` and `0.25`. -/
theorem updateSettings_exact_mapping (s : Settings) (st : ProcessorState)
    (h : st.isInitialized = true) :
    (updateSettings s st).stages.gainValue = s.gain / 100 ∧
    (updateSettings s st).stages.bassBoostGain = (s.bassBoost - 50) * 0.5 ∧
    (updateSettings s st).stages.lowGain = (s.lowFreq - 50) * 0.48 ∧
    (updateSettings s st).stages.midGain = (s.midFreq - 50) * 0.48 ∧
    (updateSettings s st).stages.highGain = (s.highFreq - 50) * 0.48 ∧
    (updateSettings s st).stages.compressorRatio =
      1 + (s.compression / 100) * 19 ∧
    (updateSettings s st).stages.compressorThreshold =
      st.stages.compressorThreshold ∧
    (updateSettings s st).stages.compressorKnee = st.stages.compressorKnee ∧
    (updateSettings s st).stages.compressorAttack = st.stages.compressorAttack ∧
    (updateSettings s st).stages.compressorRelease =
      st.stages.compressorRelease ∧
    (initGraph emptyState).stages.compressorThreshold = -24 ∧
    (initGraph emptyState).stages.compressorKnee = 30 ∧
    (initGraph emptyState).stages.compressorAttack = 0.003 ∧
    (initGraph emptyState).stages.compressorRelease = 0.25 := by
  refine ⟨?_, ?_, ?_, ?_, ?_, ?_, ?_, ?_, ?_, ?_,
    by norm_num [initGraph, emptyState, initStages],
    by norm_num [initGraph, emptyState, initStages],
    by norm_num [initGraph, emptyState, initStages],
    by norm_num [initGraph, emptyState, initStages]⟩ <;> simp [updateSettings, h]

/-- Claim C4 witness: the mapping at the mid-scale settings on the
state reached by `initialize()`. -/
theorem updateSettings_exact_mapping_witness :
    (updateSettings sBase (initGraph emptyState)).stages.gainValue =
      sBase.gain / 100 ∧
    (updateSettings sBase (initGraph emptyState)).stages.bassBoostGain =
      (sBase.bassBoost - 50) * 0.5 ∧
    (updateSettings sBase (initGraph emptyState)).stages.lowGain =
      (sBase.lowFreq - 50) * 0.48 ∧
    (updateSettings sBase (initGraph emptyState)).stages.midGain =
      (sBase.midFreq - 50) * 0.48 ∧
    (updateSettings sBase (initGraph emptyState)).stages.highGain =
      (sBase.highFreq - 50) * 0.48 ∧
    (updateSettings sBase (initGraph emptyState)).stages.compressorRatio =
      1 + (sBase.compression / 100) * 19 ∧
    (updateSettings sBase (initGraph emptyState)).stages.compressorThreshold =
      (initGraph emptyState).stages.compressorThreshold ∧
    (updateSettings sBase (initGraph emptyState)).stages.compressorKnee =
      (initGraph emptyState).stages.compressorKnee ∧
    (updateSettings sBase (initGraph emptyState)).stages.compressorAttack =
      (initGraph emptyState).stages.compressorAttack ∧
    (updateSettings sBase (initGraph emptyState)).stages.compressorRelease =
      (initGraph emptyState).stages.compressorRelease ∧
    (initGraph emptyState).stages.compressorThreshold = -24 ∧
    (initGraph emptyState).stages.compressorKnee = 30 ∧
    (initGraph emptyState).stages.compressorAttack = 0.003 ∧
    (initGraph emptyState).stages.compressorRelease = 0.25 :=
  updateSettings_exact_mapping sBase (initGraph emptyState) rfl

/-- Claim C6: concrete `play(); pause(); play()` run. `pause()` at
`now = 1` correctly stores `pausedOffset = 1` and discards the unit,
but the next `play()` calls `stop()` first — which zeroes
`pausedOffset` before the `this.pausedAt || 0` read — so the fresh
source node is started at offset `0` with anchor `now`, not at
`pausedOffset = 1` with anchor `now - 1`: resume restarts from the
beginning. -/
theorem play_after_pause_restarts_at_zero :
    (pause 1 (play 0 (loadAudioFile demoBuffer (initGraph emptyState)))).pausedAt = 1 ∧
    (play 1 (pause 1 (play 0 (loadAudioFile demoBuffer
        (initGraph emptyState))))).sourceNode =
      some { buffer := demoBuffer, startedAtOffset := 0 } ∧
    (play 1 (pause 1 (play 0 (loadAudioFile demoBuffer
        (initGraph emptyState))))).startTime = 1 ∧
    (play 1 (pause 1 (play 0 (loadAudioFile demoBuffer
        (initGraph emptyState))))).pausedAt = 0 := by
  refine ⟨?_, ?_, ?_, ?_⟩ <;>
    simp [play, pause, stop, loadAudioFile, initGraph, emptyState, jsOrZero]

/-- Claim C8: `play()` with no buffer loaded returns before touching
anything: the whole processor state — source node, anchor, paused
offset, stage parameters — is returned unchanged, and no failure is
raised (the operation is total). -/
theorem play_no_buffer_noop (now : ℚ) (st : ProcessorState)
    (h : st.audioBuffer = none) :
    play now st = st := by
  cases hc : st.hasContext <;> simp [play, hc, h]

/-- Claim C8 witness: `play()` at `now = 3` on the buffer-less state
reached by `initialize()` is the identity. -/
theorem play_no_buffer_noop_witness :
    play 3 (initGraph emptyState) = initGraph emptyState :=
  play_no_buffer_noop 3 (initGraph emptyState) rfl

/-- `updateSettings` never changes the `isInitialized` flag. -/
theorem updateSettings_isInit (s : Settings) (st : ProcessorState) :
    (updateSettings s st).isInitialized = st.isInitialized := by
  by_cases h : st.isInitialized <;> simp [updateSettings, h]

/-- On an initialized processor a later `updateSettings` completely
overwrites the effect of an earlier one. -/
theorem updateSettings_absorb (s t : Settings) (st : ProcessorState)
    (h : st.isInitialized = true) :
    updateSettings s (updateSettings t st) = updateSettings s st := by
  simp [updateSettings, h]

/-- Any sequence of earlier `updateSettings` calls is invisible to a
final `updateSettings s`. -/
theorem updateSettings_hist (s : Settings) (hist : List Settings)
    (st : ProcessorState) (h : st.isInitialized = true) :
    updateSettings s (hist.foldl (fun acc t => updateSettings t acc) st) =
      updateSettings s st := by
  induction hist generalizing st with
  | nil => rfl
  | cons t ts ih =>
      rw [List.foldl_cons,
        ih (updateSettings t st) (by rw [updateSettings_isInit, h]),
        updateSettings_absorb s t st h]

/-- Claim C9: on an initialized processor `updateSettings s` is
idempotent, and the state after `updateSettings s` is the same no
matter which sequence of earlier `updateSettings` calls ran before it:
the settings-to-stage-parameters mapping is pure and
history-independent. -/
theorem updateSettings_idempotent_pure (s : Settings) (hist : List Settings)
    (st : ProcessorState) (h : st.isInitialized = true) :
    updateSettings s (updateSettings s st) = updateSettings s st ∧
    updateSettings s (hist.foldl (fun acc t => updateSettings t acc) st) =
      updateSettings s st :=
  ⟨updateSettings_absorb s s st h, updateSettings_hist s hist st h⟩

/-- Claim C9 witness: idempotence and history-independence at the
mid-scale settings, with one earlier `updateSettings s150` call, on the
state reached by `initialize()`. -/
theorem updateSettings_idempotent_pure_witness :
    updateSettings sBase (updateSettings sBase (initGraph emptyState)) =
      updateSettings sBase (initGraph emptyState) ∧
    updateSettings sBase
        ([s150].foldl (fun acc t => updateSettings t acc) (initGraph emptyState)) =
      updateSettings sBase (initGraph emptyState) :=
  updateSettings_idempotent_pure sBase [s150] (initGraph emptyState) rfl

/-- Claim C10: two settings records that agree on every field except
possibly `saturation` and `enabled` produce exactly the same processor
state under `updateSettings` — those two fields are wired to nothing. -/
theorem saturation_enabled_inert (sA sB : Settings) (st : ProcessorState)
    (h1 : sA.bassBoost = sB.bassBoost) (h2 : sA.lowFreq = sB.lowFreq)
    (h3 : sA.midFreq = sB.midFreq) (h4 : sA.highFreq = sB.highFreq)
    (h5 : sA.compression = sB.compression) (h6 : sA.gain = sB.gain) :
    updateSettings sA st = updateSettings sB st := by
  by_cases h : st.isInitialized <;>
    simp [updateSettings, h, h1, h2, h3, h4, h5, h6]

/-- Claim C10 witness: flipping `saturation` from 50 to 0 and `enabled`
from true to false changes nothing on the state reached by
`initialize()`. -/
theorem saturation_enabled_inert_witness :
    updateSettings sBase (initGraph emptyState) =
      updateSettings sSat (initGraph emptyState) :=
  saturation_enabled_inert sBase sSat (initGraph emptyState)
    rfl rfl rfl rfl rfl rfl

/-- Claim C7: for every non-empty spectrum frame whose bins are byte
values, `getLevel` returns `mean(bins) / 255 * 100`, which lies in
`[0, 100]`; an all-zero frame yields `0` and an all-255 frame yields
`100`. -/
theorem getLevel_bounds (frame : List ℕ) (hne : frame ≠ [])
    (hb : ∀ x ∈ frame, x ≤ 255) :
    0 ≤ getLevel frame ∧ getLevel frame ≤ 100 ∧
    ((∀ x ∈ frame, x = 0) → getLevel frame = 0) ∧
    ((∀ x ∈ frame, x = 255) → getLevel frame = 100) := by
  have hn : (0 : ℚ) < (frame.length : ℚ) := by
    exact_mod_cast List.length_pos.mpr hne
  have hsn : frame.sum ≤ frame.length * 255 := by
    simpa using List.sum_le_card_nsmul frame 255 hb
  have hs : (frame.sum : ℚ) ≤ 255 * (frame.length : ℚ) := by
    have hsn2 : frame.sum ≤ 255 * frame.length := by omega
    exact_mod_cast hsn2
  refine ⟨by unfold getLevel; positivity, ?_, ?_, ?_⟩
  · have h1 : (frame.sum : ℚ) / (frame.length : ℚ) ≤ 255 := by
      rw [div_le_iff₀ hn]; linarith
    calc getLevel frame
        = (frame.sum : ℚ) / (frame.length : ℚ) * (100 / 255) := by
          unfold getLevel; ring
      _ ≤ 255 * (100 / 255) := by
          apply mul_le_mul_of_nonneg_right h1; norm_num
      _ = 100 := by norm_num
  · intro hz
    have h0 : frame.sum = 0 := List.sum_eq_zero hz
    unfold getLevel
    rw [h0]
    norm_num
  · intro hm
    have hrep : frame = List.replicate frame.length 255 :=
      List.eq_replicate_iff.mpr ⟨rfl, hm⟩
    have hsum : frame.sum = frame.length * 255 := by
      conv_lhs => rw [hrep]
      simp [List.sum_replicate, smul_eq_mul, Nat.mul_comm]
    have hne2 : (frame.length : ℚ) ≠ 0 := ne_of_gt hn
    unfold getLevel
    rw [hsum]
    push_cast
    field_simp

/-- Claim C7 witness: the bounds and both extreme-frame conclusions on
the two-bin frame `[0, 255]`. -/
theorem getLevel_bounds_witness :
    0 ≤ getLevel [0, 255] ∧ getLevel [0, 255] ≤ 100 ∧
    ((∀ x ∈ [0, 255], x = 0) → getLevel [0, 255] = 0) ∧
    ((∀ x ∈ [0, 255], x = 255) → getLevel [0, 255] = 100) :=
  getLevel_bounds [0, 255] (by decide) (by decide)

/-- Claim C3: evaluating `generateWaveform` on a decoded buffer whose
first channel holds a single frame (value `0.5`): `blockSize` is `0`,
and although the envelope still has exactly 800 entries, every entry is
the non-finite `0/0` (`NaN`) — the zero block size is not handled. -/
theorem generateWaveform_short_buffer_nan :
    (generateWaveform [(1 : ℚ)/2]).length = 800 ∧
    generateWaveform [(1 : ℚ)/2] = List.replicate 800 none := by
  have hbs : ([(1 : ℚ)/2] : List ℚ).length / samples = 0 := rfl
  constructor
  · simp [generateWaveform, samples]
  · unfold generateWaveform
    rw [hbs]
    have hmap : (List.range samples).map
        (fun i => jsDiv (blockAbsSum [(1 : ℚ)/2] 0 i) 0) =
        (List.range samples).map (fun _ => (none : Option ℚ)) :=
      List.map_congr_left (fun i _ => by simp [jsDiv])
    rw [hmap]
    refine List.eq_replicate_iff.mpr
      ⟨by rw [List.length_map, List.length_range]; rfl, ?_⟩
    intro b hb
    rcases List.mem_map.mp hb with ⟨i, _, hi⟩
    exact hi.symm

/-- `getD` of a map over `List.range` at an in-range index. -/
theorem getD_map_range {α : Type} (f : ℕ → α) (n i : ℕ) (h : i < n) (d : α) :
    ((List.range n).map f).getD i d = f i := by
  rw [List.getD_eq_getElem?_getD, List.getElem?_map, List.getElem?_range h]
  rfl

/-- Entry `i` of the envelope, as the source computes it. -/
theorem generateWaveform_getD (ch : List ℚ) (i : ℕ) (hi : i < 800) :
    (generateWaveform ch).getD i none =
      jsDiv (blockAbsSum ch (ch.length / 800) i) (ch.length / 800) := by
  simp only [generateWaveform, samples]
  exact getD_map_range _ 800 i hi none

/-- When every index of block `i` lies inside the channel, the guarded
inner-loop sum is the plain sum over the block. -/
theorem blockAbsSum_of_lt (ch : List ℚ) (bs i : ℕ)
    (h : ∀ j, j < bs → i * bs + j < ch.length) :
    blockAbsSum ch bs i =
      ((List.range bs).map (fun j => |ch.getD (i * bs + j) 0|)).sum := by
  unfold blockAbsSum
  refine congrArg List.sum (List.map_congr_left ?_)
  intro j hj
  rw [if_pos (h j (List.mem_range.mp hj))]

/-- Every frame read by a block `i < 800` lies below `800 * blockSize`. -/
theorem block_index_lt (bs i j : ℕ) (hi : i < 800) (hj : j < bs) :
    i * bs + j < 800 * bs := by
  have he : (i + 1) * bs = i * bs + bs := by ring
  have h3 : (i + 1) * bs ≤ 800 * bs := Nat.mul_le_mul_right bs (by omega)
  omega

/-- Claim C5: on a first channel of at least 800 frames the envelope
has exactly 800 entries; entry `i` is the finite mean of `|sample|`
over the `i`-th contiguous block of `blockSize = floor(length/800)`
frames, and the trailing frames beyond `800 * blockSize` contribute to
no entry: truncating the channel there leaves the whole envelope
unchanged. -/
theorem generateWaveform_block_means (ch : List ℚ) (h : 800 ≤ ch.length) :
    (generateWaveform ch).length = 800 ∧
    (∀ i, i < 800 → (generateWaveform ch).getD i none =
      some ((((List.range (ch.length / 800)).map
        (fun j => |ch.getD (i * (ch.length / 800) + j) 0|)).sum)
          / ((ch.length / 800 : ℕ) : ℚ))) ∧
    generateWaveform ch = generateWaveform (ch.take (800 * (ch.length / 800))) := by
  have hbs1 : 1 ≤ ch.length / 800 := (Nat.one_le_div_iff (by norm_num)).mpr h
  have hbs0 : ch.length / 800 ≠ 0 := by omega
  have hmul : 800 * (ch.length / 800) ≤ ch.length := by
    calc 800 * (ch.length / 800) = ch.length / 800 * 800 := by ring
      _ ≤ ch.length := Nat.div_mul_le_self ch.length 800
  refine ⟨by simp [generateWaveform, samples], ?_, ?_⟩
  · intro i hi
    rw [generateWaveform_getD ch i hi]
    unfold jsDiv
    rw [if_neg hbs0,
      blockAbsSum_of_lt ch (ch.length / 800) i
        (fun j hj => lt_of_lt_of_le (block_index_lt _ i j hi hj) hmul)]
  · have hlen : (ch.take (800 * (ch.length / 800))).length =
        800 * (ch.length / 800) :=
      List.length_take_of_le hmul
    have hbs2 : (ch.take (800 * (ch.length / 800))).length / 800 =
        ch.length / 800 := by
      rw [hlen]
      exact Nat.mul_div_cancel_left _ (by norm_num)
    unfold generateWaveform samples
    rw [hbs2]
    refine List.map_congr_left ?_
    intro i hi0
    have hi : i < 800 := List.mem_range.mp hi0
    congr 1
    unfold blockAbsSum
    refine congrArg List.sum (List.map_congr_left ?_)
    intro j hj0
    have hj : j < ch.length / 800 := List.mem_range.mp hj0
    have hlt : i * (ch.length / 800) + j < 800 * (ch.length / 800) :=
      block_index_lt _ i j hi hj
    rw [if_pos (lt_of_lt_of_le hlt hmul), if_pos (by rw [hlen]; exact hlt)]
    congr 1
    rw [List.getD_eq_getElem?_getD, List.getD_eq_getElem?_getD,
      List.getElem?_take, if_pos hlt]

/-- Claim C5 witness: the block-mean description on a constant channel
of exactly 800 frames (`blockSize = 1`). -/
theorem generateWaveform_block_means_witness :
    (generateWaveform (List.replicate 800 ((1 : ℚ)/2))).length = 800 ∧
    (∀ i, i < 800 →
      (generateWaveform (List.replicate 800 ((1 : ℚ)/2))).getD i none =
      some ((((List.range ((List.replicate 800 ((1 : ℚ)/2)).length / 800)).map
        (fun j => |(List.replicate 800 ((1 : ℚ)/2)).getD
          (i * ((List.replicate 800 ((1 : ℚ)/2)).length / 800) + j) 0|)).sum)
          / (((List.replicate 800 ((1 : ℚ)/2)).length / 800 : ℕ) : ℚ))) ∧
    generateWaveform (List.replicate 800 ((1 : ℚ)/2)) =
      generateWaveform ((List.replicate 800 ((1 : ℚ)/2)).take
        (800 * ((List.replicate 800 ((1 : ℚ)/2)).length / 800))) :=
  generateWaveform_block_means (List.replicate 800 ((1 : ℚ)/2))
    (by rw [List.length_replicate])

end BassShaper
